import Mathlib

/-!
Shallow embedding of the playback-synchronization client of the
mediaPlayerWeb repository (Next.js + Socket.IO), as implemented in
`src/app/player/page.tsx` (the canonical reconciler) and, where a claim
refers to it, the older variant in `src/app/page.tsx`.

Modelling conventions:
- Wall-clock times from `Date.now()` are integers (milliseconds); media
  playback positions and thresholds are rationals (seconds).
- Untyped JavaScript payload fields are modelled by the `JSVal` sum type,
  so that the `typeof` runtime checks of the handler can be embedded
  faithfully (NaN and the infinities have `typeof == "number"`).
- React state and refs are flattened into one `ClientState` record; every
  socket handler or callback of the page component becomes a pure function
  `ClientState -> ClientState × List Effect`, where `Effect` records the
  calls the component makes into the outside world (Video.js adapter,
  socket emissions, notifications, logs, timers).
- The stale-closure semantics of React function components is made
  explicit where it matters: a `setTimeout` callback created during a
  render reads the state values captured by that render, not the live
  state; such captured values are passed as separate arguments.
-/

/-- Model of an untyped JavaScript runtime value as it can appear in a
socket.io payload field. Finite numbers carry a rational; NaN and the two
infinities are separate constructors because `typeof` still reports them
as numbers while ordinary arithmetic comparisons behave specially. -/
inductive JSVal where
  | num (q : ℚ)
  | nan
  | posInf
  | negInf
  | bool (b : Bool)
  | str (s : String)
  | undef
  | null
deriving DecidableEq

/-- JavaScript `typeof v === "number"` for a `JSVal`. NaN and the
infinities are of number type. -/
def jsIsNumber : JSVal → Bool
  | .num _ => true
  | .nan => true
  | .posInf => true
  | .negInf => true
  | _ => false

/-- JavaScript `typeof v === "boolean"` for a `JSVal`. -/
def jsIsBool : JSVal → Bool
  | .bool _ => true
  | _ => false

/-- JavaScript truthiness of a `JSVal`. -/
def jsTruthy : JSVal → Bool
  | .num q => decide (q ≠ 0)
  | .nan => false
  | .posInf => true
  | .negInf => true
  | .bool b => b
  | .str s => decide (s ≠ "")
  | .undef => false
  | .null => false

/-- The `MediaState` value type of the client (player page), a snapshot of
the Video.js adapter: `{ currentTime: number, isPlaying: boolean }`. -/
structure MediaState where
  currentTime : ℚ
  isPlaying : Bool
deriving DecidableEq

/-- A received `mediaState` object before runtime validation: both fields
are raw JavaScript values. -/
structure JSMediaState where
  currentTime : JSVal
  isPlaying : JSVal
deriving DecidableEq

/-- The envelope the outbound path of `player/page.tsx` emits on the
`syncMedia` event. The emitted object literal has exactly the fields
`roomId`, `mediaState`, `senderId`, `isAutoSync`, `isManualSync`; it has
no `syncType` field, which is modelled by `syncType : Option String`
being `none` on every emission. -/
structure OutEnvelope where
  roomId : String
  mediaState : MediaState
  senderId : String
  isAutoSync : Bool
  isManualSync : Bool
  syncType : Option String
deriving DecidableEq

/-- The inbound `syncMedia` payload as the handler of `player/page.tsx`
sees it: `{ mediaState: MediaState, senderId?: string, syncType?: string }`.
The wire envelope also carries a `roomId` (the outbound path sends one);
the handler never reads it, but it is kept here so that room-scoping
claims can be stated. Absent or null object fields are `none`. -/
structure SyncData where
  roomId : Option String
  mediaState : Option JSMediaState
  senderId : Option String
  syncType : Option String
deriving DecidableEq

/-- Effects the page component performs on the outside world: calls into
the Video.js adapter (`seek`, `play`, `pause`), socket emissions,
user-visible notifications, console logs, and timer scheduling. -/
inductive Effect where
  | log (msg : String)
  | notify (msg : String) (isError : Bool)
  | seek (t : JSVal)
  | play
  | pause
  | emit (e : OutEnvelope)
  | emitCreateRoom
  | emitJoinRoom (code : String)
  | emitLeaveRoom (code : String)
  | scheduleGuardClear (delayMs : ℤ)
deriving DecidableEq

/-- Whether an effect mutates the media adapter (position or play state). -/
def altersAdapter : Effect → Bool
  | .seek _ => true
  | .play => true
  | .pause => true
  | _ => false

/-- Whether an effect is an outbound socket emission of a sync envelope. -/
def isEmit : Effect → Bool
  | .emit _ => true
  | _ => false

/-- Whether an effect is a seek on the media adapter. -/
def isSeek : Effect → Bool
  | .seek _ => true
  | _ => false

/-- React state and refs of the `MediaPlayer` component of
`player/page.tsx`, restricted to the fields the synchronization logic
reads or writes. `hasSocket` and `hasPlayer` model the non-nullness of
`mediaSyncSocketRef.current` and `playerRef.current`; `playerPos` and
`playerPaused` mirror `player.currentTime()` and `player.paused()`;
`isReceivingSync` is the `isReceivingSyncRef` guard flag; `lastAutoSync`
is `lastAutoSyncRef.current` (milliseconds, initially 0). -/
structure ClientState where
  isConnected : Bool
  currentRoom : Option String
  roomCode : String
  isLoading : Bool
  autoSyncEnabled : Bool
  isReceivingSync : Bool
  lastAutoSync : ℤ
  hasSocket : Bool
  hasPlayer : Bool
  playerPos : ℚ
  playerPaused : Bool
  ownId : String
deriving DecidableEq

/-- Classification of the received `syncType` field, from
`const syncType = data.syncType || 'UNKNOWN'` (an absent field is
undefined, hence falsy, hence replaced by the string UNKNOWN). -/
def classifySyncType (o : Option String) : String :=
  match o with
  | none => "UNKNOWN"
  | some s => if s = "" then "UNKNOWN" else s

/-- Correction threshold selected by the sync kind, from
`syncType === 'MANUAL' ? 0.3 : syncType === 'ROOM_STATE' ? 1.0 : 0.5`
(seconds). -/
def thresholdFor (s : String) : ℚ :=
  if s = "MANUAL" then 3/10 else if s = "ROOM_STATE" then 1 else 1/2

/-- The comparison `Math.abs(player.currentTime() - currentTime) > threshold`
where the received `currentTime` is a raw JavaScript number. A NaN operand
makes every `>` comparison false; an infinite operand makes the absolute
difference infinite, hence greater than any rational threshold. Other
constructors cannot occur, because the handler compares only after the
`typeof ... === 'number'` validation. -/
def timeDiffExceeds (pos : ℚ) (ct : JSVal) (th : ℚ) : Bool :=
  match ct with
  | .num q => decide (th < |pos - q|)
  | .nan => false
  | .posInf => true
  | .negInf => true
  | _ => false

/-- Delay of the guard-clearing timer in the `finally` block of the
inbound handler: `setTimeout(..., 100)` (milliseconds). -/
def guardClearDelayMs : ℤ := 100

/-- Debounce delay before `autoSyncMediaState` runs after a local `play`
event: `setTimeout(autoSyncMediaState, 100)` in `handlePlay`. -/
def playDebounceMs : ℤ := 100

/-- Debounce delay before `autoSyncMediaState` runs after a local `pause`
event: `setTimeout(autoSyncMediaState, 100)` in `handlePause`. -/
def pauseDebounceMs : ℤ := 100

/-- Debounce delay before `autoSyncMediaState` runs after a local `seeked`
event: `setTimeout(autoSyncMediaState, 200)` in `handleSeeked`. -/
def seekedDebounceMs : ℤ := 200

/-- Throttle window of the auto-sync path: at least 500 ms must have
elapsed since `lastAutoSyncRef.current` (milliseconds). -/
def autoSyncThrottleMs : ℤ := 500

/-- The inbound `syncMedia` handler of `player/page.tsx` (lines 154-240),
translated check for check:
1. missing `mediaState` is logged and dropped;
2. not being in a room is logged and dropped;
3. a missing Video.js player is logged and dropped;
4. `typeof currentTime !== 'number' || typeof isPlaying !== 'boolean'` is
   logged and dropped;
5. `data.senderId === mediaSyncSocket.id` is logged and dropped;
otherwise the guard flag `isReceivingSync` is set, the threshold is
selected by the classified sync type, a seek is issued when the absolute
time difference exceeds the threshold, play or pause align the playing
state, a notification is shown for MANUAL and ROOM_STATE kinds, and the
`finally` block schedules the guard-clearing timer (100 ms). The handler
itself never emits and never clears the guard synchronously on this
path. -/
def onSyncMedia (st : ClientState) (data : SyncData) : ClientState × List Effect :=
  match data.mediaState with
  | none => (st, [Effect.log "Received sync data without mediaState"])
  | some ms =>
    if st.currentRoom.isNone then
      (st, [Effect.log "Received sync data but not in a room - ignoring"])
    else if !st.hasPlayer then
      (st, [Effect.log "Received sync data but no Video.js player available"])
    else if !(jsIsNumber ms.currentTime && jsIsBool ms.isPlaying) then
      (st, [Effect.log "Invalid sync data received"])
    else if data.senderId = some st.ownId then
      (st, [Effect.log "Ignoring own sync event"])
    else
      let st1 := { st with isReceivingSync := true }
      let syncType := classifySyncType data.syncType
      let threshold := thresholdFor syncType
      let seekEffs :=
        if timeDiffExceeds st1.playerPos ms.currentTime threshold then
          [Effect.seek ms.currentTime]
        else []
      let ppEffs :=
        if jsTruthy ms.isPlaying && st1.playerPaused then [Effect.play]
        else if !jsTruthy ms.isPlaying && !st1.playerPaused then [Effect.pause]
        else []
      let noteEffs :=
        if syncType = "MANUAL" || syncType = "ROOM_STATE" then
          [Effect.notify "Media synced" false]
        else []
      (st1, seekEffs ++ ppEffs ++ noteEffs ++ [Effect.scheduleGuardClear guardClearDelayMs])

/-- The rejection continuation attached to the `player.play()` promise in
the inbound handler (`.catch` at lines 208-211): it logs, shows an error
notification, and does nothing else; in particular it does not touch the
adapter, does not emit, and does not retry `play()`. -/
def onPlayRejected (st : ClientState) : ClientState × List Effect :=
  (st, [Effect.log "Failed to play video",
        Effect.notify "Failed to play video - user interaction may be required" true])

/-- The `autoSyncMediaState` function (lines 528-555): bail out when
auto-sync is disabled, the socket or player is missing, no room is
joined, or the receive-guard flag is set; then throttle to one emission
per 500 ms measured from `lastAutoSyncRef.current`; otherwise record the
emission time, snapshot the player state, and emit an envelope with
`isAutoSync: true, isManualSync: false` and no `syncType` field.
`now` is the value of `Date.now()` at the call. -/
def autoSyncMediaState (st : ClientState) (now : ℤ) : ClientState × List Effect :=
  if !st.autoSyncEnabled || !st.hasSocket || !st.hasPlayer
      || st.currentRoom.isNone || st.isReceivingSync then
    (st, [])
  else if now - st.lastAutoSync < autoSyncThrottleMs then
    (st, [])
  else
    let ms : MediaState := { currentTime := st.playerPos, isPlaying := !st.playerPaused }
    ({ st with lastAutoSync := now },
     [Effect.emit
        { roomId := st.currentRoom.getD ""
          mediaState := ms
          senderId := st.ownId
          isAutoSync := true
          isManualSync := false
          syncType := none }])

/-- The user-initiated `syncMediaState` function (lines 557-578): it only
requires a socket, a player and a room; it performs no throttle check and
does not read `lastAutoSyncRef`; it snapshots the player state at call
time and emits an envelope with `isManualSync: true, isAutoSync: false`
and no `syncType` field. The sync-button animation flag is UI-only and
not modelled. -/
def syncMediaState (st : ClientState) : ClientState × List Effect :=
  if !st.hasSocket || !st.hasPlayer || st.currentRoom.isNone then
    (st, [Effect.notify "Cannot sync: No room joined or video loaded" true])
  else
    let ms : MediaState := { currentTime := st.playerPos, isPlaying := !st.playerPaused }
    (st,
     [Effect.emit
        { roomId := st.currentRoom.getD ""
          mediaState := ms
          senderId := st.ownId
          isAutoSync := false
          isManualSync := true
          syncType := none },
      Effect.notify "Media synced successfully!" false])

/-- Reading an emitted envelope back as an inbound payload: the wire
object is exactly the emitted object literal, so `mediaState` holds a
finite number and a boolean, `senderId` is present, and `syncType` is
whatever the emission carried (never set by this client). -/
def inboundOf (e : OutEnvelope) : SyncData :=
  { roomId := some e.roomId
    mediaState := some { currentTime := .num e.mediaState.currentTime
                         isPlaying := .bool e.mediaState.isPlaying }
    senderId := some e.senderId
    syncType := e.syncType }

/-- The `disconnect` handler of the socket (lines 81-84): it logs and
sets `isConnected` to false. It does not touch `currentRoom`. -/
def onDisconnect (st : ClientState) : ClientState :=
  { st with isConnected := false }

/-- The `reconnect` handler of the socket (lines 96-100): it sets
`isConnected` to true and shows a notification; it emits nothing, in
particular no `joinRoom` or `createRoom`. -/
def onReconnect (st : ClientState) : ClientState × List Effect :=
  ({ st with isConnected := true }, [Effect.notify "Reconnected to server" false])

/-- The `createRoom` click handler (lines 580-595): with no socket it only
notifies; otherwise it sets `isLoading`, emits `createRoom`, and schedules
a 10 s fallback timeout whose callback is `createRoomTimeoutCb` below.
The callback closes over the `isLoading` binding of the render that
created this handler, not over live state; that captured value is the
`renderIsLoading` argument of the callback. -/
def createRoom (st : ClientState) : ClientState × List Effect :=
  if !st.hasSocket then
    (st, [Effect.notify "Not connected to server" true])
  else
    ({ st with isLoading := true }, [Effect.emitCreateRoom])

/-- Body of the 10 s `setTimeout` scheduled by `createRoom`
(`if (isLoading) { setIsLoading(false); showNotification('Room creation timed out', 'error') }`).
`renderIsLoading` is the captured `isLoading` of the render in which the
click handler was created; `st` is the live state when the timer fires. -/
def createRoomTimeoutCb (renderIsLoading : Bool) (st : ClientState) : ClientState × List Effect :=
  if renderIsLoading then
    ({ st with isLoading := false }, [Effect.notify "Room creation timed out" true])
  else
    (st, [])

/-- JavaScript whitespace as far as the room codes of this client can
contain it (space, tab, newline, carriage return), used to model
`String.prototype.trim`. -/
def jsWhitespace (c : Char) : Bool :=
  c = ' ' || c = '\t' || c = '\n' || c = '\r'

/-- Model of `roomCode.trim()`: drop whitespace from both ends. -/
def strTrim (s : String) : String :=
  ⟨((s.data.dropWhile jsWhitespace).reverse.dropWhile jsWhitespace).reverse⟩

/-- The `handleJoinRoom` click handler (lines 597-616): an empty trimmed
room code or a missing socket only notifies; otherwise it sets
`isLoading`, emits `joinRoom` with the trimmed code, and schedules a 10 s
fallback timeout whose callback is `joinRoomTimeoutCb` below, closing
over the render-time `isLoading` exactly as `createRoom` does. -/
def handleJoinRoom (st : ClientState) : ClientState × List Effect :=
  if strTrim st.roomCode = "" then
    (st, [Effect.notify "Please enter a room code" true])
  else if !st.hasSocket then
    (st, [Effect.notify "Not connected to server" true])
  else
    ({ st with isLoading := true }, [Effect.emitJoinRoom (strTrim st.roomCode)])

/-- Body of the 10 s `setTimeout` scheduled by `handleJoinRoom`. -/
def joinRoomTimeoutCb (renderIsLoading : Bool) (st : ClientState) : ClientState × List Effect :=
  if renderIsLoading then
    ({ st with isLoading := false }, [Effect.notify "Join room timed out" true])
  else
    (st, [])

/-- Watchdog delay of the create and join fallback timeouts (ms). -/
def roomWatchdogMs : ℤ := 10000

/-- Emission times of a sequence of `autoSyncMediaState` invocations: the
state is threaded through the calls and the times at which an emission
actually happened are collected. The invocation times are the `Date.now()`
values seen by each call (debounce timers determine them; the throttle is
independent of how the calls were scheduled). -/
def autoEmitTimes : ClientState → List ℤ → List ℤ
  | _, [] => []
  | st, t :: ts =>
    let r := autoSyncMediaState st t
    if r.2.isEmpty then autoEmitTimes r.1 ts else t :: autoEmitTimes r.1 ts

/-- State of the older `MediaPlayer` component in `src/app/page.tsx`, the
second place a `syncMedia` handler is installed. `isManuallySyncing` and
`isRemoteUpdate` are the two ref flags of that variant; `hasVideo`,
`videoPos` and `videoPaused` mirror `videoRef.current`. -/
structure PageState where
  isManuallySyncing : Bool
  isRemoteUpdate : Bool
  hasVideo : Bool
  videoPos : ℚ
  videoPaused : Bool
  ownId : String
deriving DecidableEq

/-- Inbound payload as destructured by the `src/app/page.tsx` handler:
`({ mediaState }) => ...`. The wire envelope can carry a `senderId`; this
handler never destructures or reads it, so the field is kept only so the
claim about own-sender envelopes can be stated against this handler. This
variant declares its `mediaState` as typed numbers and performs no runtime
type validation. -/
structure PageSyncData where
  mediaState : Option MediaState
  senderId : Option String
deriving DecidableEq

/-- The fixed `syncThreshold = 0.3` of `src/app/page.tsx` (line 58). -/
def pageSyncThreshold : ℚ := 3/10

/-- The inbound `syncMedia` handler of `src/app/page.tsx` (lines 195-240):
drop when `mediaState` is missing or a manual sync is in progress; then
set `isRemoteUpdateRef`, return if the video element is missing, seek when
the time difference exceeds the fixed 0.3 s threshold, align play and
pause, and schedule the 500 ms clearing of `isRemoteUpdateRef`. This
handler never inspects `senderId`. -/
def pageOnSyncMedia (st : PageState) (data : PageSyncData) : PageState × List Effect :=
  match data.mediaState with
  | none => (st, [Effect.log "Sync ignored"])
  | some ms =>
    if st.isManuallySyncing then
      (st, [Effect.log "Sync ignored"])
    else
      let st1 := { st with isRemoteUpdate := true }
      if !st1.hasVideo then (st1, [])
      else
        let seekEffs :=
          if pageSyncThreshold < |st1.videoPos - ms.currentTime| then
            [Effect.seek (.num ms.currentTime)]
          else []
        let ppEffs :=
          if ms.isPlaying ≠ !st1.videoPaused then
            (if ms.isPlaying then [Effect.play] else [Effect.pause])
          else []
        (st1, seekEffs ++ ppEffs ++ [Effect.scheduleGuardClear 500])

/-- Whether an effect is a console log. -/
def isLog : Effect → Bool
  | .log _ => true
  | _ => false

/-- The condition under which the inbound handler of `player/page.tsx`
actually applies an envelope (reaches the reconciliation body instead of
one of its five early returns): a `mediaState` object is present, the
client is in a room and has a player, both payload fields pass the
`typeof` validation, and the sender is not this client. -/
def inboundApplied (st : ClientState) (data : SyncData) : Bool :=
  match data.mediaState with
  | none => false
  | some ms =>
    st.currentRoom.isSome && st.hasPlayer && jsIsNumber ms.currentTime
      && jsIsBool ms.isPlaying && !(decide (data.senderId = some st.ownId))

/-- A concrete client state used to instantiate the theorems below: in
room AB12CD, connected, player loaded and paused at position 0, guard
clear, own connection id "me". -/
def wSt : ClientState :=
  ⟨true, some "AB12CD", "", false, true, false, 0, true, true, 0, true, "me"⟩

/-- A concrete state of the older `src/app/page.tsx` component: no manual
sync or remote update in progress, video paused at position 0, own
connection id "me". -/
def cPageSt : PageState := ⟨false, false, true, 0, true, "me"⟩

/-- A well-formed inbound payload whose `senderId` equals the own id of
`cPageSt`, carrying position 10 s, playing. -/
def cPageData : PageSyncData := ⟨some ⟨10, true⟩, some "me"⟩

/-- Whether an effect is one of the room-management emissions. -/
def isRoomEmit : Effect → Bool
  | .emitCreateRoom => true
  | .emitJoinRoom _ => true
  | .emitLeaveRoom _ => true
  | _ => false

/-- A concrete state for the join-room run: like the base state but with
the room code input field holding AB12CD and no room joined yet. -/
def jSt : ClientState :=
  ⟨true, none, "AB12CD", false, true, false, 0, true, true, 0, true, "me"⟩

/-- Evaluation of the inbound handler on its applied branch: with a
present `mediaState`, a joined room, a player, validated field types and
a foreign sender, the handler sets the guard flag and issues the seek,
play or pause, the kind-dependent notification, and the guard-clear
timer. -/
theorem onSyncMedia_applied (st : ClientState) (data : SyncData) (ms : JSMediaState)
    (hms : data.mediaState = some ms) (hroom : st.currentRoom.isSome = true)
    (hplayer : st.hasPlayer = true)
    (hnum : jsIsNumber ms.currentTime = true) (hbool : jsIsBool ms.isPlaying = true)
    (hsender : ¬ data.senderId = some st.ownId) :
    onSyncMedia st data =
      ({ st with isReceivingSync := true },
       (if timeDiffExceeds st.playerPos ms.currentTime
            (thresholdFor (classifySyncType data.syncType)) then
          [Effect.seek ms.currentTime]
        else [])
       ++ (if jsTruthy ms.isPlaying && st.playerPaused then [Effect.play]
           else if !jsTruthy ms.isPlaying && !st.playerPaused then [Effect.pause]
           else [])
       ++ (if classifySyncType data.syncType = "MANUAL"
              ∨ classifySyncType data.syncType = "ROOM_STATE" then
             [Effect.notify "Media synced" false]
           else [])
       ++ [Effect.scheduleGuardClear guardClearDelayMs]) := by
  unfold onSyncMedia
  rw [hms]
  simp [Option.isNone_iff_eq_none, Option.isSome_iff_ne_none] at hroom
  simp [hroom, hplayer, hnum, hbool, hsender]

/-- Claim C1. For every inbound syncMedia envelope whose senderId equals
the own connection id, the inbound handler of `player/page.tsx` returns
with the state unchanged and produces only console logs: no seek, no
play or pause, no emission, no guard change (amended: this holds for the
`player/page.tsx` handler; the handler of `src/app/page.tsx` does not
inspect `senderId`, see the counterexample). -/
theorem C1_player_echo_suppression :
    ∀ (st : ClientState) (data : SyncData), data.senderId = some st.ownId →
      (onSyncMedia st data).1 = st ∧ ((onSyncMedia st data).2.all isLog) = true := by
  intro st data h
  unfold onSyncMedia
  cases hms : data.mediaState with
  | none => simp [isLog]
  | some ms =>
    by_cases h1 : st.currentRoom.isNone <;> by_cases h2 : st.hasPlayer <;>
      by_cases h3 : jsIsNumber ms.currentTime && jsIsBool ms.isPlaying <;>
        simp [h1, h2, h3, h, isLog]

/-- Witness for C1: a concrete own-sender envelope is dropped with the
state unchanged and only a log emitted. -/
theorem C1_player_echo_suppression_witness :
    (⟨some "AB12CD", some ⟨.num 10, .bool true⟩, some "me", none⟩ : SyncData).senderId
        = some wSt.ownId
    ∧ ((onSyncMedia wSt ⟨some "AB12CD", some ⟨.num 10, .bool true⟩, some "me", none⟩).1 = wSt
       ∧ ((onSyncMedia wSt
            ⟨some "AB12CD", some ⟨.num 10, .bool true⟩, some "me", none⟩).2.all isLog) = true) :=
  ⟨rfl, C1_player_echo_suppression wSt
    ⟨some "AB12CD", some ⟨.num 10, .bool true⟩, some "me", none⟩ rfl⟩

/-- Counterexample for C1 as stated: the `syncMedia` handler of
`src/app/page.tsx` (the second handler the claim refers to) never reads
`senderId`, so an envelope whose senderId equals the own connection id is
fed into reconciliation and issues a seek instead of being discarded. -/
theorem C1_counterexample :
    cPageData.senderId = some cPageSt.ownId
    ∧ Effect.seek (.num 10) ∈ (pageOnSyncMedia cPageSt cPageData).2 := by
  constructor
  · rfl
  · simp [pageOnSyncMedia, cPageSt, cPageData, pageSyncThreshold]
    norm_num [abs_eq_max_neg]

/-- Claim C2, amended. Applying an inbound envelope leaves the guard flag
set when the handler returns (it is never cleared synchronously on this
path) and schedules its clearing on the 100 ms timer of the finally
block; while the guard flag is set, the auto-sync outbound path emits
nothing, so no event-triggered emission happens inside the guard window
even when applying the update fires local play, pause or seeked events.
Amended: the guard window (100 ms) equals the play and pause debounce
delays and is shorter than the 200 ms seeked debounce delay; it is not
longer than every debounce delay of the outbound path. -/
theorem C2_guard_window :
    (∀ (st : ClientState) (data : SyncData), inboundApplied st data = true →
       (onSyncMedia st data).1.isReceivingSync = true
       ∧ Effect.scheduleGuardClear guardClearDelayMs ∈ (onSyncMedia st data).2
       ∧ ((onSyncMedia st data).2.all fun e => !isEmit e) = true)
    ∧ (∀ (st : ClientState) (now : ℤ), st.isReceivingSync = true →
         autoSyncMediaState st now = (st, []))
    ∧ guardClearDelayMs = playDebounceMs ∧ guardClearDelayMs = pauseDebounceMs
    ∧ guardClearDelayMs < seekedDebounceMs := by
  refine ⟨?_, ?_, by decide, by decide, by decide⟩
  · intro st data h
    unfold inboundApplied at h
    cases hms : data.mediaState with
    | none => rw [hms] at h; exact absurd h (by simp)
    | some ms =>
      rw [hms] at h
      simp only [Bool.and_eq_true, Bool.not_eq_true', decide_eq_false_iff_not] at h
      obtain ⟨⟨⟨⟨hroom, hplayer⟩, hnum⟩, hbool⟩, hsender⟩ := h
      rw [onSyncMedia_applied st data ms hms hroom hplayer hnum hbool hsender]
      refine ⟨rfl, ?_, ?_⟩ <;> split_ifs <;> simp [isEmit]
  · intro st now h
    unfold autoSyncMediaState
    simp [h]

/-- Witness for C2: a concrete applied envelope leaves the guard set and
schedules the 100 ms clear with no emission, and a concrete state with
the guard set emits nothing from the auto-sync path. -/
theorem C2_guard_window_witness :
    (inboundApplied wSt ⟨some "AB12CD", some ⟨.num 10, .bool true⟩, some "peer", none⟩ = true
     ∧ ((onSyncMedia wSt ⟨some "AB12CD", some ⟨.num 10, .bool true⟩, some "peer", none⟩).1.isReceivingSync = true
        ∧ Effect.scheduleGuardClear guardClearDelayMs ∈
            (onSyncMedia wSt ⟨some "AB12CD", some ⟨.num 10, .bool true⟩, some "peer", none⟩).2
        ∧ ((onSyncMedia wSt ⟨some "AB12CD", some ⟨.num 10, .bool true⟩, some "peer", none⟩).2.all
             fun e => !isEmit e) = true))
    ∧ ({ wSt with isReceivingSync := true } : ClientState).isReceivingSync = true
    ∧ autoSyncMediaState { wSt with isReceivingSync := true } 1000
        = ({ wSt with isReceivingSync := true }, []) :=
  ⟨⟨by decide,
    C2_guard_window.1 wSt ⟨some "AB12CD", some ⟨.num 10, .bool true⟩, some "peer", none⟩ (by decide)⟩,
   rfl, C2_guard_window.2.1 { wSt with isReceivingSync := true } 1000 rfl⟩

/-- Counterexample for C2 as stated: the guard window (100 ms) is not
longer than every debounce delay of the outbound path, since the seeked
debounce delay is 200 ms and the play and pause debounce delays are
100 ms as well. -/
theorem C2_counterexample :
    ¬ (playDebounceMs < guardClearDelayMs ∧ pauseDebounceMs < guardClearDelayMs
       ∧ seekedDebounceMs < guardClearDelayMs) := by decide

/-- Claim C3. For an applied envelope carrying a finite numeric
currentTime, the inbound handler issues a seek to that time if and only
if the absolute difference with the local position exceeds the threshold
selected by the sync kind; otherwise the position is left untouched (no
seek effect at all). The thresholds are 0.3 s for MANUAL, 1.0 s for
ROOM_STATE, and 0.5 s for AUTO or any other or absent kind. In
particular, MANUAL with a 0.4 s difference seeks, and ROOM_STATE with a
0.4 s difference does not. -/
theorem C3_threshold_selection :
    (∀ (st : ClientState) (data : SyncData) (ms : JSMediaState) (q : ℚ) (b : Bool),
       data.mediaState = some ms → ms.currentTime = .num q → ms.isPlaying = .bool b →
       st.currentRoom.isSome = true → st.hasPlayer = true →
       ¬ data.senderId = some st.ownId →
       ((Effect.seek (.num q) ∈ (onSyncMedia st data).2
           ↔ thresholdFor (classifySyncType data.syncType) < |st.playerPos - q|)
        ∧ (¬ thresholdFor (classifySyncType data.syncType) < |st.playerPos - q| →
             ((onSyncMedia st data).2.all fun e => !isSeek e) = true)))
    ∧ thresholdFor "MANUAL" = 3/10 ∧ thresholdFor "ROOM_STATE" = 1
    ∧ thresholdFor "AUTO" = 1/2
    ∧ (∀ s, s ≠ "MANUAL" → s ≠ "ROOM_STATE" → thresholdFor s = 1/2)
    ∧ Effect.seek (.num (2/5)) ∈
        (onSyncMedia wSt
          ⟨some "AB12CD", some ⟨.num (2/5), .bool true⟩, some "peer", some "MANUAL"⟩).2
    ∧ ((onSyncMedia wSt
          ⟨some "AB12CD", some ⟨.num (2/5), .bool true⟩, some "peer", some "ROOM_STATE"⟩).2.all
         fun e => !isSeek e) = true := by
  refine ⟨?_, rfl, rfl, rfl, ?_, ?_, ?_⟩
  · intro st data ms q b hms hct hip hroom hplayer hsender
    have hnum : jsIsNumber ms.currentTime = true := by rw [hct]; rfl
    have hbool : jsIsBool ms.isPlaying = true := by rw [hip]; rfl
    rw [onSyncMedia_applied st data ms hms hroom hplayer hnum hbool hsender]
    rw [hct, hip]
    have hTD : timeDiffExceeds st.playerPos (JSVal.num q)
        (thresholdFor (classifySyncType data.syncType))
        = decide (thresholdFor (classifySyncType data.syncType) < |st.playerPos - q|) := rfl
    by_cases hd : thresholdFor (classifySyncType data.syncType) < |st.playerPos - q|
    · refine ⟨by simp [hTD, hd], fun hcon => absurd hd hcon⟩
    · constructor
      · refine iff_of_false ?_ hd
        rw [hTD, decide_eq_false hd]
        simp only [if_false, List.nil_append, List.mem_append, List.mem_singleton]
        split_ifs <;> simp_all
      · intro _
        rw [hTD, decide_eq_false hd]
        simp only [if_false, List.nil_append]
        split_ifs <;> simp_all [isSeek]
  · intro s h1 h2
    simp [thresholdFor, h1, h2]
  · simp [onSyncMedia, wSt, timeDiffExceeds, classifySyncType, thresholdFor,
      jsIsNumber, jsIsBool, jsTruthy]
    norm_num [abs_eq_max_neg]
  · simp [onSyncMedia, wSt, timeDiffExceeds, classifySyncType, thresholdFor,
      jsIsNumber, jsIsBool, jsTruthy]
    norm_num [abs_eq_max_neg, isSeek]

/-- Witness for C3: an AUTO-kind envelope at a 10 s difference from a
concrete state seeks if and only if the difference exceeds 0.5 s, which
it does. -/
theorem C3_threshold_selection_witness :
    (Effect.seek (.num 10) ∈
       (onSyncMedia wSt ⟨some "AB12CD", some ⟨.num 10, .bool true⟩, some "peer", some "AUTO"⟩).2
     ↔ thresholdFor (classifySyncType
         (⟨some "AB12CD", some ⟨.num 10, .bool true⟩, some "peer", some "AUTO"⟩ : SyncData).syncType)
         < |wSt.playerPos - 10|)
    ∧ (¬ thresholdFor (classifySyncType
         (⟨some "AB12CD", some ⟨.num 10, .bool true⟩, some "peer", some "AUTO"⟩ : SyncData).syncType)
         < |wSt.playerPos - 10| →
       ((onSyncMedia wSt
          ⟨some "AB12CD", some ⟨.num 10, .bool true⟩, some "peer", some "AUTO"⟩).2.all
         fun e => !isSeek e) = true) :=
  C3_threshold_selection.1 wSt
    ⟨some "AB12CD", some ⟨.num 10, .bool true⟩, some "peer", some "AUTO"⟩
    ⟨.num 10, .bool true⟩ 10 true rfl rfl rfl rfl rfl (by decide)

/-- Case analysis of one `autoSyncMediaState` call: either it is a no-op
(guard or throttle rejected it), or it emitted, recorded the emission
time, and the previous emission time was at least the throttle window
ago. -/
theorem autoSync_skip_or_emit (st : ClientState) (t : ℤ) :
    autoSyncMediaState st t = (st, [])
    ∨ ((autoSyncMediaState st t).1.lastAutoSync = t
       ∧ st.lastAutoSync + autoSyncThrottleMs ≤ t
       ∧ ((autoSyncMediaState st t).2.isEmpty = false)) := by
  unfold autoSyncMediaState
  split_ifs with h1 h2
  · exact Or.inl rfl
  · exact Or.inl rfl
  · right
    refine ⟨rfl, ?_, rfl⟩
    have := not_lt.mp h2
    linarith

/-- Soundness of the throttle along any sequence of auto-sync attempts:
the first recorded emission is at least the throttle window after the
initial `lastAutoSync`, and any two consecutive recorded emissions are at
least the throttle window apart. -/
theorem autoEmitTimes_sound : ∀ (ts : List ℤ) (st : ClientState),
    (∀ e, (autoEmitTimes st ts).head? = some e →
       st.lastAutoSync + autoSyncThrottleMs ≤ e)
    ∧ List.Chain' (fun a b => a + autoSyncThrottleMs ≤ b) (autoEmitTimes st ts) := by
  intro ts
  induction ts with
  | nil =>
    intro st
    constructor
    · intro e he; simp [autoEmitTimes] at he
    · simp [autoEmitTimes]
  | cons t ts ih =>
    intro st
    rcases autoSync_skip_or_emit st t with hskip | ⟨hlast, hge, hne⟩
    · have hstep : autoEmitTimes st (t :: ts) = autoEmitTimes st ts := by
        simp [autoEmitTimes, hskip]
      rw [hstep]
      exact ih st
    · have hstep : autoEmitTimes st (t :: ts)
          = t :: autoEmitTimes (autoSyncMediaState st t).1 ts := by
        simp [autoEmitTimes, hne]
      rw [hstep]
      constructor
      · intro e he
        simp only [List.head?_cons, Option.some.injEq] at he
        rw [← he]
        exact hge
      · rw [List.chain'_cons']
        constructor
        · intro e he
          have := (ih (autoSyncMediaState st t).1).1 e he
          rwa [hlast] at this
        · exact (ih (autoSyncMediaState st t).1).2

/-- Claim C4. Along any sequence of auto-sync attempts, any two recorded
AUTO emissions are at least 500 ms apart (so any 500 ms window measured
from the last auto-sync time holds at most one AUTO emission); in
particular two play-debounced attempts 100 ms apart yield exactly one
emission; and the user-initiated manual sync emits unconditionally on any
state that has a socket, a player and a room, regardless of the throttle
bookkeeping, with a fresh MediaState snapshot of the player taken at
emission time. -/
theorem C4_throttle_and_manual_bypass :
    (∀ (st : ClientState) (ts : List ℤ),
       List.Chain' (fun a b => a + autoSyncThrottleMs ≤ b) (autoEmitTimes st ts))
    ∧ autoEmitTimes wSt [1000, 1100] = [1000]
    ∧ (∀ st : ClientState, st.hasSocket = true → st.hasPlayer = true →
         st.currentRoom.isSome = true →
         (syncMediaState st).2 =
           [Effect.emit ⟨st.currentRoom.getD "", ⟨st.playerPos, !st.playerPaused⟩,
              st.ownId, false, true, none⟩,
            Effect.notify "Media synced successfully!" false]) := by
  refine ⟨fun st ts => (autoEmitTimes_sound ts st).2, ?_, ?_⟩
  · simp [autoEmitTimes, autoSyncMediaState, wSt, autoSyncThrottleMs]
  · intro st hs hp hr
    unfold syncMediaState
    have hnone : st.currentRoom.isNone = false := by
      cases hoc : st.currentRoom with
      | none => rw [hoc] at hr; simp at hr
      | some r => simp [hoc]
    simp [hs, hp, hnone]

/-- Witness for C4: the manual sync on the concrete state emits the
snapshot envelope, with the hypotheses discharged concretely. -/
theorem C4_throttle_and_manual_bypass_witness :
    (syncMediaState wSt).2 =
      [Effect.emit ⟨wSt.currentRoom.getD "", ⟨wSt.playerPos, !wSt.playerPaused⟩,
         wSt.ownId, false, true, none⟩,
       Effect.notify "Media synced successfully!" false] :=
  C4_throttle_and_manual_bypass.2.2 wSt rfl rfl rfl

/-- Claim C5, amended. Every inbound envelope whose mediaState is missing,
or whose currentTime is not of JavaScript number type, or whose isPlaying
is not a boolean, is logged and dropped with the state unchanged and no
player side effect; in particular an envelope with currentTime "abc" is
dropped. Amended: the validation is only the two `typeof` checks; it does
not test finiteness or sign, so a negative or non-finite numeric
currentTime passes validation and is applied (see the counterexample). -/
theorem C5_malformed_payload_rejection :
    (∀ (st : ClientState) (data : SyncData), data.mediaState = none →
       (onSyncMedia st data).1 = st ∧ ((onSyncMedia st data).2.all isLog) = true)
    ∧ (∀ (st : ClientState) (data : SyncData) (ms : JSMediaState),
         data.mediaState = some ms →
         (jsIsNumber ms.currentTime = false ∨ jsIsBool ms.isPlaying = false) →
         (onSyncMedia st data).1 = st ∧ ((onSyncMedia st data).2.all isLog) = true)
    ∧ onSyncMedia wSt ⟨some "AB12CD", some ⟨.str "abc", .bool true⟩, some "peer", none⟩
        = (wSt, [Effect.log "Invalid sync data received"]) := by
  refine ⟨?_, ?_, ?_⟩
  · intro st data h
    unfold onSyncMedia
    rw [h]
    simp [isLog]
  · intro st data ms hms h
    unfold onSyncMedia
    rw [hms]
    have hval : (jsIsNumber ms.currentTime && jsIsBool ms.isPlaying) = false := by
      rcases h with h | h <;> simp [h]
    by_cases h1 : st.currentRoom.isNone <;> by_cases h2 : st.hasPlayer <;>
      simp [h1, h2, hval, isLog]
  · simp [onSyncMedia, wSt, jsIsNumber, jsIsBool]

/-- Witness for C5: a concrete envelope with a string currentTime is
dropped with the state unchanged and only logs emitted. -/
theorem C5_malformed_payload_rejection_witness :
    (onSyncMedia wSt ⟨some "AB12CD", some ⟨.str "abc", .bool true⟩, some "peer", none⟩).1 = wSt
    ∧ ((onSyncMedia wSt
         ⟨some "AB12CD", some ⟨.str "abc", .bool true⟩, some "peer", none⟩).2.all isLog) = true :=
  C5_malformed_payload_rejection.2.1 wSt
    ⟨some "AB12CD", some ⟨.str "abc", .bool true⟩, some "peer", none⟩
    ⟨.str "abc", .bool true⟩ rfl (Or.inl rfl)

/-- Counterexample for C5 as stated: an envelope whose currentTime is the
number -5 (a number that is not a finite non-negative value) is not
dropped: the handler applies it, changing its state and seeking the
player to -5. -/
theorem C5_counterexample :
    (onSyncMedia wSt ⟨some "AB12CD", some ⟨.num (-5), .bool true⟩, some "peer", none⟩).1 ≠ wSt
    ∧ Effect.seek (.num (-5)) ∈
        (onSyncMedia wSt ⟨some "AB12CD", some ⟨.num (-5), .bool true⟩, some "peer", none⟩).2 := by
  constructor
  · intro hcon
    have : ((onSyncMedia wSt
        ⟨some "AB12CD", some ⟨.num (-5), .bool true⟩, some "peer", none⟩).1).isReceivingSync
        = wSt.isReceivingSync := by rw [hcon]
    revert this
    simp [onSyncMedia, wSt, jsIsNumber, jsIsBool]
  · simp [onSyncMedia, wSt, timeDiffExceeds, classifySyncType, thresholdFor,
      jsIsNumber, jsIsBool, jsTruthy]
    norm_num [abs_eq_max_neg]

/-- Claim C6, amended. An inbound envelope causes a player side effect
only if the client currently has a joined room and a player, and an
envelope arriving while no room is joined is discarded with no player
side effect; amended: the handler never compares the envelope roomId
with the current room (room scoping is left to the relay), so an
envelope carrying a different roomId is still applied (see the
counterexample). -/
theorem C6_membership_gating :
    (∀ (st : ClientState) (data : SyncData),
       ((onSyncMedia st data).2.any altersAdapter) = true →
       st.currentRoom.isSome = true ∧ st.hasPlayer = true)
    ∧ (∀ (st : ClientState) (data : SyncData), st.currentRoom = none →
       (onSyncMedia st data).1 = st
       ∧ ((onSyncMedia st data).2.all fun e => !altersAdapter e) = true) := by
  constructor
  · intro st data h
    by_cases h1 : st.currentRoom.isNone
    · exfalso
      unfold onSyncMedia at h
      cases hms : data.mediaState with
      | none => rw [hms] at h; simp [altersAdapter] at h
      | some ms => rw [hms] at h; simp [h1, altersAdapter] at h
    · by_cases h2 : st.hasPlayer
      · refine ⟨?_, h2⟩
        cases hoc : st.currentRoom with
        | none => rw [hoc] at h1; simp at h1
        | some r => simp
      · exfalso
        unfold onSyncMedia at h
        cases hms : data.mediaState with
        | none => rw [hms] at h; simp [altersAdapter] at h
        | some ms =>
          rw [hms] at h
          simp [h1, h2, altersAdapter] at h
  · intro st data h
    unfold onSyncMedia
    cases hms : data.mediaState with
    | none => simp [altersAdapter]
    | some ms => simp [h, altersAdapter]

/-- Witness for C6: a concrete applied envelope produces a seek, and the
theorem instantiated at it certifies the room and player were present. -/
theorem C6_membership_gating_witness :
    ((onSyncMedia wSt ⟨some "AB12CD", some ⟨.num 10, .bool true⟩, some "peer", none⟩).2.any
       altersAdapter) = true
    ∧ (wSt.currentRoom.isSome = true ∧ wSt.hasPlayer = true) := by
  have hany : ((onSyncMedia wSt
      ⟨some "AB12CD", some ⟨.num 10, .bool true⟩, some "peer", none⟩).2.any
        altersAdapter) = true := by
    simp [onSyncMedia, wSt, timeDiffExceeds, classifySyncType, thresholdFor,
      jsIsNumber, jsIsBool, jsTruthy, altersAdapter]
  exact ⟨hany, C6_membership_gating.1 wSt
    ⟨some "AB12CD", some ⟨.num 10, .bool true⟩, some "peer", none⟩ hany⟩

/-- Counterexample for C6 as stated: the client is in room AB12CD but the
envelope carries roomId ZZ, and the handler still applies it, seeking the
player. -/
theorem C6_counterexample :
    (⟨some "ZZ", some ⟨.num 10, .bool true⟩, some "peer", none⟩ : SyncData).roomId
        ≠ wSt.currentRoom
    ∧ Effect.seek (.num 10) ∈
        (onSyncMedia wSt ⟨some "ZZ", some ⟨.num 10, .bool true⟩, some "peer", none⟩).2 := by
  constructor
  · simp [wSt]
  · simp [onSyncMedia, wSt, timeDiffExceeds, classifySyncType, thresholdFor,
      jsIsNumber, jsIsBool, jsTruthy]
    norm_num [abs_eq_max_neg]


/-- Claim C7, amended. On a transport disconnect the handler only clears
the connected flag; the current room identifier is retained, not reset
(see the counterexample for the claimed reset). After a reconnect the
client does not automatically rejoin: the reconnect handler changes no
room state and emits nothing, in particular no join or create request;
membership can only be re-established by an explicit user action. -/
theorem C7_disconnect_reconnect :
    ∀ st : ClientState,
      (onDisconnect st).isConnected = false
      ∧ (onDisconnect st).currentRoom = st.currentRoom
      ∧ (onReconnect st).1.currentRoom = st.currentRoom
      ∧ ((onReconnect st).2.all fun e => !isEmit e && !isRoomEmit e) = true := by
  intro st
  exact ⟨rfl, rfl, rfl, rfl⟩

/-- Counterexample for C7 as stated: after a disconnect in room AB12CD the
current room identifier is still AB12CD, not cleared. -/
theorem C7_counterexample : (onDisconnect wSt).currentRoom ≠ none := by
  simp [onDisconnect, wSt]


/-- Claim C8, evidence of the code bug. Starting from a connected state
whose render had isLoading = false (the only state in which the create
and join buttons are enabled), createRoom and handleJoinRoom set the
loading flag and emit their requests; but when the 10 s fallback timer
fires with no acknowledgment received, its callback tests the stale
captured isLoading (false), so it does nothing: the loading flag stays
set and no timeout notification is ever shown, contrary to the claimed
watchdog behavior. -/
theorem C8_watchdog_callback_dead :
    ((createRoom jSt).1.isLoading = true
     ∧ (createRoom jSt).2 = [Effect.emitCreateRoom]
     ∧ createRoomTimeoutCb jSt.isLoading (createRoom jSt).1 = ((createRoom jSt).1, []))
    ∧ ((handleJoinRoom jSt).1.isLoading = true
       ∧ (handleJoinRoom jSt).2 = [Effect.emitJoinRoom "AB12CD"]
       ∧ joinRoomTimeoutCb jSt.isLoading (handleJoinRoom jSt).1
           = ((handleJoinRoom jSt).1, [])) := by
  refine ⟨⟨rfl, rfl, rfl⟩, ?_⟩
  have ht : strTrim "AB12CD" = "AB12CD" := by decide
  refine ⟨?_, ?_, ?_⟩ <;> simp [handleJoinRoom, joinRoomTimeoutCb, jSt, ht]

/-- Claim C9. The rejection continuation of the play() call made while
applying an inbound envelope leaves the whole client state (room
membership included) unchanged, shows exactly one user-facing error
notification plus a log, and performs no adapter mutation, no emission,
and in particular no retry of play(). -/
theorem C9_play_rejection_nonfatal :
    ∀ st : ClientState,
      (onPlayRejected st).1 = st
      ∧ (onPlayRejected st).2 =
          [Effect.log "Failed to play video",
           Effect.notify "Failed to play video - user interaction may be required" true]
      ∧ ((onPlayRejected st).2.all fun e => !altersAdapter e && !isEmit e) = true := by
  intro st
  exact ⟨rfl, rfl, rfl⟩

/-- Claim C10. Every envelope emitted by either outbound path carries the
isAutoSync and isManualSync flags (exactly one of them set) and no
syncType field; consequently a receiver running the inbound handler
classifies it as UNKNOWN and selects the default 0.5 s threshold, never
the MANUAL 0.3 s or ROOM_STATE 1.0 s ones. -/
theorem C10_outbound_lacks_synckind :
    ∀ (st : ClientState) (now : ℤ) (e : OutEnvelope),
      (Effect.emit e ∈ (autoSyncMediaState st now).2
       ∨ Effect.emit e ∈ (syncMediaState st).2) →
      e.syncType = none
      ∧ classifySyncType (inboundOf e).syncType = "UNKNOWN"
      ∧ thresholdFor (classifySyncType (inboundOf e).syncType) = 1/2
      ∧ thresholdFor (classifySyncType (inboundOf e).syncType) ≠ thresholdFor "MANUAL"
      ∧ thresholdFor (classifySyncType (inboundOf e).syncType) ≠ thresholdFor "ROOM_STATE"
      ∧ (e.isAutoSync = true ∧ e.isManualSync = false
         ∨ e.isAutoSync = false ∧ e.isManualSync = true) := by
  intro st now e h
  have hnone : e.syncType = none ∧ (e.isAutoSync = true ∧ e.isManualSync = false
      ∨ e.isAutoSync = false ∧ e.isManualSync = true) := by
    rcases h with h | h
    · unfold autoSyncMediaState at h
      split_ifs at h <;> simp at h
      rw [h]
      exact ⟨rfl, Or.inl ⟨rfl, rfl⟩⟩
    · unfold syncMediaState at h
      split_ifs at h <;> simp at h
      rw [h]
      exact ⟨rfl, Or.inr ⟨rfl, rfl⟩⟩
  refine ⟨hnone.1, ?_, ?_, ?_, ?_, hnone.2⟩ <;>
    (simp [inboundOf, hnone.1, classifySyncType, thresholdFor]; try norm_num)

/-- Witness for C10: the auto-sync emission from the concrete state is an
envelope without syncType that the inbound classifier maps to UNKNOWN
with the 0.5 s threshold. -/
theorem C10_outbound_lacks_synckind_witness :
    Effect.emit ⟨"AB12CD", ⟨0, false⟩, "me", true, false, none⟩
        ∈ (autoSyncMediaState wSt 1000).2
    ∧ (⟨"AB12CD", ⟨0, false⟩, "me", true, false, none⟩ : OutEnvelope).syncType = none
    ∧ classifySyncType
        (inboundOf ⟨"AB12CD", ⟨0, false⟩, "me", true, false, none⟩).syncType = "UNKNOWN"
    ∧ thresholdFor (classifySyncType
        (inboundOf ⟨"AB12CD", ⟨0, false⟩, "me", true, false, none⟩).syncType) = 1/2
    ∧ thresholdFor (classifySyncType
        (inboundOf ⟨"AB12CD", ⟨0, false⟩, "me", true, false, none⟩).syncType)
        ≠ thresholdFor "MANUAL"
    ∧ thresholdFor (classifySyncType
        (inboundOf ⟨"AB12CD", ⟨0, false⟩, "me", true, false, none⟩).syncType)
        ≠ thresholdFor "ROOM_STATE"
    ∧ ((⟨"AB12CD", ⟨0, false⟩, "me", true, false, none⟩ : OutEnvelope).isAutoSync = true
        ∧ (⟨"AB12CD", ⟨0, false⟩, "me", true, false, none⟩ : OutEnvelope).isManualSync = false
       ∨ (⟨"AB12CD", ⟨0, false⟩, "me", true, false, none⟩ : OutEnvelope).isAutoSync = false
        ∧ (⟨"AB12CD", ⟨0, false⟩, "me", true, false, none⟩ : OutEnvelope).isManualSync = true) := by
  have hmem : Effect.emit ⟨"AB12CD", ⟨0, false⟩, "me", true, false, none⟩
      ∈ (autoSyncMediaState wSt 1000).2 := by
    simp [autoSyncMediaState, wSt, autoSyncThrottleMs]
  exact ⟨hmem, C10_outbound_lacks_synckind wSt 1000
    ⟨"AB12CD", ⟨0, false⟩, "me", true, false, none⟩ (Or.inl hmem)⟩
